import Mathlib

set_option maxRecDepth 8000

/-
Verification of the resilient live-event ingestion subsystem of GoalShock
(src/backend/bot/websocket_goal_listener.py) against its specification.

The Python source is shallowly embedded: each handler becomes a pure Lean
function on an explicit state record.  Python `dict.get(k, default)` lookups
on inbound JSON payloads are modelled with `Option` fields and `Option.getD`.
Two sources of environment nondeterminism are injected as parameters:
the jitter sample drawn by `random.uniform` in `_handle_reconnection`, and
the iteration order that `list(self.seen_goals)` happens to produce for the
Python `set` (CPython string hashing is seeded, so that order is
implementation-defined; it is modelled as an injected enumeration function
`enum`, assumed to permute the set where a proof needs that).
Wall-clock timestamps (`datetime.now()`) are not modelled: no claim
mentions them.
-/

/-- Allow-listed league identifiers, `WebSocketGoalListener.SUPPORTED_LEAGUES`
(lines 71-80 of the source). -/
def SUPPORTED_LEAGUES : List Nat := [39, 140, 78, 135, 61, 2, 3, 848]

/-- Goal event record, dataclass `GoalEventWS` (lines 19-33).  The Python
dataclass performs no runtime type checks, so `fixture_id` and `league_id`
may hold `None` when the corresponding payload key is absent; they are
modelled as `Option Nat`.  The `timestamp` field is omitted (wall clock). -/
structure GoalEventWS where
  fixture_id : Option Nat
  league_id : Option Nat
  league_name : String
  home_team : String
  away_team : String
  team : String
  player : String
  minute : Nat
  home_score : Nat
  away_score : Nat
  goal_type : String
deriving DecidableEq, Repr

/-- Payload of an inbound `goal` message as read by `_handle_goal_event`
(lines 210-253): every field is fetched with `dict.get`, hence optional. -/
structure GoalMsg where
  fixture_id : Option Nat
  home_team : Option String
  away_team : Option String
  league_id : Option Nat
  league_name : Option String
  team : Option String
  player : Option String
  minute : Option Nat
  goal_type : Option String
  score_home : Option Nat
  score_away : Option Nat
deriving DecidableEq, Repr

/-- Payload of an inbound `fixture_update` message (lines 264-271). -/
structure FixtureUpdateMsg where
  fixture_id : Option Nat
  status : Option String
deriving DecidableEq, Repr

/-- Mutable state of a `WebSocketGoalListener` touched by message processing:
`self.seen_goals` (a `set`, modelled as its insertion-ordered list of
distinct keys) and `self.active_fixtures` (a `dict`, modelled as an
association list). -/
structure ListenerState where
  seen_goals : List String
  active_fixtures : List (Nat × FixtureUpdateMsg)
deriving DecidableEq, Repr

/-- Python `f"{x}"` for an optional int: `None` formats as `"None"`. -/
def opt_nat_str : Option Nat → String
  | some n => toString n
  | none => "None"

/-- Dedup key built at line 227:
`f"{fixture_id}_{goal.get('minute', 0)}_{goal.get('player', 'unknown')}"`. -/
def goal_id (m : GoalMsg) : String :=
  opt_nat_str m.fixture_id ++ "_" ++ toString (m.minute.getD 0) ++ "_" ++
    m.player.getD "unknown"

/-- League filter at line 222: `if league_id not in self.SUPPORTED_LEAGUES`.
Python `None not in {ints}` is `True`, so a missing league id is rejected. -/
def league_allowed : Option Nat → Bool
  | some lid => SUPPORTED_LEAGUES.contains lid
  | none => false

/-- GoalEventWS construction at lines 240-253 with its `dict.get` defaults. -/
def goal_event_from_msg (m : GoalMsg) : GoalEventWS :=
  { fixture_id := m.fixture_id
    league_id := m.league_id
    league_name := m.league_name.getD "Unknown"
    home_team := m.home_team.getD "Unknown"
    away_team := m.away_team.getD "Unknown"
    team := m.team.getD "Unknown"
    player := m.player.getD "Unknown"
    minute := m.minute.getD 0
    home_score := m.score_home.getD 0
    away_score := m.score_away.getD 0
    goal_type := m.goal_type.getD "Normal" }

/-- Dedup-set pruning at lines 236-237:
`if len(self.seen_goals) > 1000: self.seen_goals = set(list(self.seen_goals)[-500:])`.
The order in which `list(...)` enumerates the set is the injected `enum`. -/
def prune_seen_goals (enum : List String → List String) (seen : List String) :
    List String :=
  if 1000 < seen.length then (enum seen).drop ((enum seen).length - 500)
  else seen

/-- Handler `_handle_goal_event` (lines 210-262).  Returns the updated state
together with the list of events passed to `_notify_goal_callbacks`
(empty when the message is dropped by the league filter or the dedup set). -/
def handle_goal_event (enum : List String → List String) (st : ListenerState)
    (m : GoalMsg) : ListenerState × List GoalEventWS :=
  if league_allowed m.league_id then
    let gid := goal_id m
    if gid ∈ st.seen_goals then (st, [])
    else
      let seen := prune_seen_goals enum (st.seen_goals ++ [gid])
      ({ st with seen_goals := seen }, [goal_event_from_msg m])
  else (st, [])

/-- Handler `_handle_fixture_update` (lines 264-271).  Python `if fixture_id:`
is falsy both for a missing id and for the id `0`. -/
def handle_fixture_update (st : ListenerState) (u : FixtureUpdateMsg) :
    ListenerState :=
  match u.fixture_id with
  | some fid =>
      if fid = 0 then st
      else
        { st with active_fixtures :=
            (fid, u) :: st.active_fixtures.filter (fun e => !(e.1 == fid)) }
  | none => st

/-- Classification of one raw inbound frame as `_process_message`
(lines 186-208) sees it: `malformed` is text rejected by `json.loads`
(JSONDecodeError), `nonDict` is valid JSON that is not an object (so
`data.get` raises AttributeError, caught by the broad `except`), and the
remaining constructors correspond to the value of `data.get("type", "")`. -/
inductive WsMessage where
  | malformed (raw : String)
  | nonDict (raw : String)
  | goal (m : GoalMsg)
  | fixtureUpdate (u : FixtureUpdateMsg)
  | heartbeat
  | errorMsg (text : Option String)
  | unknown (t : String)
deriving DecidableEq, Repr

/-- Handler `_process_message` (lines 186-208).  The whole dispatch sits in a
`try` whose `except` clauses log and drop, so the result is `Except.ok` by
construction, mirroring the source structure. -/
def process_message (enum : List String → List String) (st : ListenerState) :
    WsMessage → Except String (ListenerState × List GoalEventWS)
  | .malformed _ => Except.ok (st, [])
  | .nonDict _ => Except.ok (st, [])
  | .goal m => Except.ok (handle_goal_event enum st m)
  | .fixtureUpdate u => Except.ok (handle_fixture_update st u, [])
  | .heartbeat => Except.ok (st, [])
  | .errorMsg _ => Except.ok (st, [])
  | .unknown _ => Except.ok (st, [])

/-- Registered downstream consumer (`on_goal`); a Python callback that may
raise is a function into `Except`. -/
def Consumer : Type := GoalEventWS → Except String Unit

/-- Fanout loop of `_notify_goal_callbacks` (lines 273-282); the loop of
`_emit_polling_goal` (lines 447-454) has the same shape.  Each iteration runs
one callback inside `try/except`, so the per-consumer outcome is recorded
(logged) instead of being rethrown; the returned trace lists, in registration
order, the raw result of each invocation.  An uncaught consumer error would
surface as `Except.error` of the whole dispatch. -/
def notify_goal_callbacks : List Consumer → GoalEventWS →
    Except String (List (Except String Unit))
  | [], _ => Except.ok []
  | cb :: rest, g =>
      let r := cb g
      match notify_goal_callbacks rest g with
      | Except.ok rs => Except.ok (r :: rs)
      | Except.error e => Except.error e

/-- Connection state of `WebSocketGoalListener` used by the retry logic:
`self.running` and `self.reconnect_attempts` (lines 91, 101). -/
structure WsConn where
  running : Bool
  reconnect_attempts : Nat
deriving DecidableEq, Repr

/-- Reconnect ceiling `self.max_reconnect_attempts` (line 102). -/
def max_reconnect_attempts : Nat := 10

/-- Backoff base `self.base_reconnect_delay`, seconds (line 103). -/
def base_reconnect_delay : ℚ := 2

/-- Backoff cap `self.max_reconnect_delay`, seconds (line 104). -/
def max_reconnect_delay : ℚ := 60

/-- Delay computed by `_handle_reconnection` (lines 293-302) for a given
attempt number: `min(base * 2^(attempt-1), cap)` plus jitter
`delay * random.uniform(0, 0.25)`.  The random draw is injected as
`r ∈ [0, 1]`, with `uniform(0, 0.25) = r * (1/4)`. -/
def next_delay (attempt : Nat) (r : ℚ) : ℚ :=
  let delay := min (base_reconnect_delay * 2 ^ (attempt - 1)) max_reconnect_delay
  delay + delay * (r * (1 / 4))

/-- Handler `_handle_reconnection` (lines 284-305): increment the attempt
counter; past the ceiling, flip `running` off and sleep for no delay
(exhaustion); otherwise sleep for the backoff-with-jitter delay. -/
def handle_reconnection (s : WsConn) (r : ℚ) : WsConn × Option ℚ :=
  let a := s.reconnect_attempts + 1
  if max_reconnect_attempts < a then
    ({ running := false, reconnect_attempts := a }, none)
  else
    ({ s with reconnect_attempts := a }, some (next_delay a r))

/-- Outcome of one `_connect_and_listen` call, scripted by the environment:
the connection either raises (connect failure or mid-stream error) or
connects — resetting the attempt counter (line 156) — and later ends. -/
inductive ConnAttempt where
  | fails
  | succeeds
deriving DecidableEq, Repr

/-- Body of one iteration of the `while self.running` loop in `start`
(lines 121-128): the exception from `_connect_and_listen` is caught, and
`_handle_reconnection` runs only when still `running`. -/
def start_iter (s : WsConn) : ConnAttempt → WsConn
  | .succeeds => { s with reconnect_attempts := 0 }
  | .fails => if s.running then (handle_reconnection s 0).1 else s

/-- Retry loop of `WebSocketGoalListener.start` (lines 116-128), consuming
one scripted connection outcome per iteration.  Every connection error is
caught inside the loop, so the loop only ends with `running = false` (or
when the script runs out, modelling observation at that instant); the
`Except` result records whether `start` raised to its caller. -/
def start_run : List ConnAttempt → WsConn → Except String WsConn
  | [], s => Except.ok s
  | o :: rest, s =>
      if s.running then start_run rest (start_iter s o) else Except.ok s

/-- Wrapper `HybridGoalListener._run_websocket` (lines 360-366): the polling
flag `self.use_polling_fallback` is set only when `ws_listener.start()`
raises; `start` is entered with `running := true` and attempts `0`. -/
def run_websocket (outcomes : List ConnAttempt) (use_polling_fallback : Bool) :
    Bool :=
  match start_run outcomes { running := true, reconnect_attempts := 0 } with
  | Except.ok _ => use_polling_fallback
  | Except.error _ => true

/-- One cycle of `HybridGoalListener._health_monitor` (lines 368-375):
`_poll_for_goals` is invoked iff the loop is running and the fallback flag
is set. -/
def health_monitor_polls (running use_polling_fallback : Bool) : Bool :=
  running && use_polling_fallback

/-- Side of the scoreboard whose column increased, the `side` argument of
`_emit_polling_goal`. -/
inductive Side where
  | home
  | away
deriving DecidableEq, Repr

/-- Live-fixture snapshot entry as `_poll_for_goals` reads it (lines
395-403, 424-438): `fixture["fixture"]["id"]`, `fixture["league"]`,
`fixture["teams"]`, `fixture["goals"]` are mandatory (a missing key raises
KeyError, caught at line 419, aborting the poll cycle), while
`goals.home/away` may be JSON null (`or 0`) and
`fixture["fixture"]["status"].get("elapsed", 0)` is optional. -/
structure PollFixture where
  fixture_id : Nat
  league_id : Nat
  league_name : String
  home_team : String
  away_team : String
  goals_home : Option Nat
  goals_away : Option Nat
  elapsed : Option Nat
deriving DecidableEq, Repr

/-- Event synthesized by `_emit_polling_goal` (lines 422-443). -/
def emit_polling_goal (f : PollFixture) (side : Side) : GoalEventWS :=
  { fixture_id := some f.fixture_id
    league_id := some f.league_id
    league_name := f.league_name
    home_team := f.home_team
    away_team := f.away_team
    team := match side with | .home => f.home_team | .away => f.away_team
    player := "Unknown (from polling)"
    minute := f.elapsed.getD 0
    home_score := f.goals_home.getD 0
    away_score := f.goals_away.getD 0
    goal_type := "Normal" }

/-- Lookup in `self.previous_scores` (a `dict` from fixture id to a score
pair, line 332), modelled as an association list. -/
def score_lookup (tbl : List (Nat × Nat × Nat)) (fid : Nat) :
    Option (Nat × Nat) :=
  (tbl.find? (fun e => e.1 == fid)).map (fun e => e.2)

/-- Store into `self.previous_scores` (line 417). -/
def score_insert (tbl : List (Nat × Nat × Nat)) (fid : Nat) (v : Nat × Nat) :
    List (Nat × Nat × Nat) :=
  (fid, v) :: tbl.filter (fun e => !(e.1 == fid))

/-- Per-fixture body of the `_poll_for_goals` loop (lines 395-417): skip
fixtures outside the allow-list (no snapshot update), otherwise emit one
home event and/or one away event by comparing the current scores with the
stored snapshot — nothing on first sighting — then store the current scores
unconditionally. -/
def poll_fixture_step (tbl : List (Nat × Nat × Nat)) (f : PollFixture) :
    List GoalEventWS × List (Nat × Nat × Nat) :=
  if league_allowed (some f.league_id) then
    let current : Nat × Nat := (f.goals_home.getD 0, f.goals_away.getD 0)
    let events :=
      match score_lookup tbl f.fixture_id with
      | none => []
      | some prev =>
          (if prev.1 < current.1 then [emit_polling_goal f .home] else []) ++
          (if prev.2 < current.2 then [emit_polling_goal f .away] else [])
    (events, score_insert tbl f.fixture_id current)
  else ([], tbl)

/-- Whole poll cycle `_poll_for_goals` over the fetched fixture list,
threading the snapshot table and concatenating emissions in order. -/
def poll_for_goals (tbl : List (Nat × Nat × Nat)) :
    List PollFixture → List GoalEventWS × List (Nat × Nat × Nat)
  | [] => ([], tbl)
  | f :: rest =>
      let r := poll_fixture_step tbl f
      let rr := poll_for_goals r.2 rest
      (r.1 ++ rr.1, rr.2)

/-- Stream of goal messages processed one after the other by
`_handle_goal_event`, threading the listener state (the events emitted at
each step are notified and then discarded here). -/
def run_goal_msgs (enum : List String → List String) (st : ListenerState) :
    List GoalMsg → ListenerState
  | [] => st
  | m :: rest => run_goal_msgs enum (handle_goal_event enum st m).1 rest

/-- Concrete instance of the injected set-enumeration order used in the
counterexamples: the run of CPython whose `list(self.seen_goals)` happens to
enumerate the set in reverse insertion order (string hashing is seeded, so
the order carries no recency information; any permutation is a legitimate
model). -/
def set_enum_reverse (l : List String) : List String := l.reverse

/-- Most recent half of the insertions into the dedup set, when `l` lists
the retained keys in insertion order (claim-side vocabulary for C4). -/
def recent_half (l : List String) : List String := l.drop (l.length / 2)

/-- Player name consisting of `n` letters `a`; 1000 such players give 1000
distinct dedup keys. -/
def cex_player (n : Nat) : String := String.mk (List.replicate n 'a')

/-- Allow-listed goal message number `n` of the warm-up traffic used by the
counterexamples: fixture 1, minute 0, player `cex_player n`. -/
def cex_pre_msg (n : Nat) : GoalMsg :=
  { fixture_id := some 1, home_team := none, away_team := none,
    league_id := some 39, league_name := none, team := none,
    player := some (cex_player n), minute := some 0, goal_type := none,
    score_home := none, score_away := none }

/-- Dedup keys retained after the 1000 warm-up messages, in insertion
order. -/
def cex_keys : List String := (List.range 1000).map (fun n => goal_id (cex_pre_msg n))

/-- Fresh goal message arriving when the dedup set holds 1000 keys
(fixture 2000, minute 7, player q). -/
def c3_m : GoalMsg :=
  { fixture_id := some 2000, home_team := none, away_team := none,
    league_id := some 39, league_name := none, team := none,
    player := some "q", minute := some 7, goal_type := none,
    score_home := some 1, score_away := some 0 }

/-- First of two player-less goal messages for fixture 2000 at minute 9
(score 1-0): the payload carries no scorer identity. -/
def c10_m1 : GoalMsg :=
  { fixture_id := some 2000, home_team := none, away_team := none,
    league_id := some 39, league_name := none, team := none,
    player := none, minute := some 9, goal_type := none,
    score_home := some 1, score_away := some 0 }

/-- Second player-less goal message for fixture 2000 at minute 9, reporting
a genuinely distinct goal (score 2-0). -/
def c10_m2 : GoalMsg :=
  { fixture_id := some 2000, home_team := none, away_team := none,
    league_id := some 39, league_name := none, team := none,
    player := none, minute := some 9, goal_type := none,
    score_home := some 2, score_away := some 0 }

/-- New key arriving when the dedup set holds the 1000 warm-up keys
(fixture 3000, minute 1, player z). -/
def c4_new : String := goal_id
  { fixture_id := some 3000, home_team := none, away_team := none,
    league_id := some 39, league_name := none, team := none,
    player := some "z", minute := some 1, goal_type := none,
    score_home := none, score_away := none }

/-- Dedup-set contents, in insertion order, at the moment the pruning of
lines 236-237 fires: the 1000 warm-up keys plus the newly added key. -/
def c4_seen : List String := cex_keys ++ [c4_new]

/-- Goal message whose payload reports minute 200 (stream payloads are not
range-checked). -/
def c9_m : GoalMsg :=
  { fixture_id := some 42, home_team := none, away_team := none,
    league_id := some 39, league_name := none, team := none,
    player := some "x", minute := some 200, goal_type := none,
    score_home := some 1, score_away := some 0 }

/-- Live snapshot of allow-listed fixture 7 at minute 55, now 2-0. -/
def c5_f : PollFixture :=
  { fixture_id := 7, league_id := 39, league_name := "Premier League",
    home_team := "H", away_team := "A", goals_home := some 2,
    goals_away := some 0, elapsed := some 55 }

/-- Goal message for a league (id 999) outside the allow-list. -/
def c7_m : GoalMsg :=
  { fixture_id := some 5, home_team := some "X", away_team := some "Y",
    league_id := some 999, league_name := some "Obscure",
    team := some "X", player := some "p", minute := some 30,
    goal_type := none, score_home := some 1, score_away := some 0 }

/-- Goal message with every identity field missing (allow-listed league). -/
def c8_m : GoalMsg :=
  { fixture_id := none, home_team := none, away_team := none,
    league_id := some 2, league_name := none, team := none,
    player := none, minute := none, goal_type := none,
    score_home := none, score_away := none }

/-- Processing an allow-listed goal message whose key is fresh, while fewer
than 1000 keys are retained, appends the key and emits the event. -/
theorem handle_goal_event_fresh (enum : List String → List String)
    (st : ListenerState) (m : GoalMsg)
    (hleague : league_allowed m.league_id = true)
    (hfresh : goal_id m ∉ st.seen_goals)
    (hlen : st.seen_goals.length < 1000) :
    handle_goal_event enum st m =
      ({ st with seen_goals := st.seen_goals ++ [goal_id m] },
        [goal_event_from_msg m]) := by
  unfold handle_goal_event
  rw [if_pos hleague, if_neg hfresh]
  have hp : prune_seen_goals enum (st.seen_goals ++ [goal_id m]) =
      st.seen_goals ++ [goal_id m] := by
    unfold prune_seen_goals
    rw [if_neg]
    simp only [List.length_append, List.length_cons, List.length_nil]
    omega
  rw [hp]

/-- Processing a goal message whose key is already retained changes nothing
and emits nothing (whatever its league). -/
theorem handle_goal_event_seen (enum : List String → List String)
    (st : ListenerState) (m : GoalMsg)
    (hmem : goal_id m ∈ st.seen_goals) :
    handle_goal_event enum st m = (st, []) := by
  unfold handle_goal_event
  by_cases h : league_allowed m.league_id = true
  · rw [if_pos h, if_pos hmem]
  · rw [if_neg h]

/-- Processing an allow-listed goal message whose key is fresh appends the
key and applies the pruning, whatever the current size of the set. -/
theorem handle_goal_event_fresh_prune (enum : List String → List String)
    (st : ListenerState) (m : GoalMsg)
    (hleague : league_allowed m.league_id = true)
    (hfresh : goal_id m ∉ st.seen_goals) :
    handle_goal_event enum st m =
      ({ st with seen_goals :=
          prune_seen_goals enum (st.seen_goals ++ [goal_id m]) },
        [goal_event_from_msg m]) := by
  unfold handle_goal_event
  rw [if_pos hleague, if_neg hfresh]

/-- Processing a list of allow-listed goal messages with pairwise fresh keys
that keeps the dedup set at or below the high-water mark appends exactly the
keys of the messages, in order. -/
theorem run_goal_msgs_fresh (enum : List String → List String) :
    ∀ (msgs : List GoalMsg) (st : ListenerState),
      (∀ m ∈ msgs, league_allowed m.league_id = true) →
      (st.seen_goals ++ msgs.map goal_id).Nodup →
      st.seen_goals.length + msgs.length ≤ 1000 →
      run_goal_msgs enum st msgs =
        { st with seen_goals := st.seen_goals ++ msgs.map goal_id } := by
  intro msgs
  induction msgs with
  | nil => intro st _ _ _; simp [run_goal_msgs]
  | cons m rest ih =>
      intro st hall hnd hlen
      have hleague : league_allowed m.league_id = true := hall m (by simp)
      have hnd' : (st.seen_goals ++ goal_id m :: rest.map goal_id).Nodup := by
        simpa using hnd
      have hfresh : goal_id m ∉ st.seen_goals := by
        intro hmem
        have hdisj := (List.nodup_append.mp hnd').2.2
        exact hdisj hmem (by simp)
      have hlen1 : st.seen_goals.length < 1000 := by
        simp only [List.length_cons] at hlen; omega
      have hstep := handle_goal_event_fresh enum st m hleague hfresh hlen1
      show run_goal_msgs enum (handle_goal_event enum st m).1 rest = _
      rw [hstep]
      have hrec := ih { st with seen_goals := st.seen_goals ++ [goal_id m] }
        (fun x hx => hall x (by simp [hx]))
        (by simpa [List.append_assoc] using hnd')
        (by simp only [List.length_append, List.length_cons, List.length_nil] at hlen ⊢; omega)
      rw [hrec]
      simp [List.append_assoc]

/-- Dedup key of warm-up message `n`, written out character by character. -/
theorem goal_id_cex_pre (n : Nat) :
    goal_id (cex_pre_msg n) =
      String.mk ('1' :: '_' :: '0' :: '_' :: List.replicate n 'a') := by
  simp only [goal_id, cex_pre_msg, cex_player, opt_nat_str, Option.getD_some]
  rfl

/-- Distinct warm-up messages have distinct dedup keys. -/
theorem goal_id_cex_pre_inj :
    Function.Injective (fun n => goal_id (cex_pre_msg n)) := by
  intro a b h
  simp only [goal_id_cex_pre] at h
  have hd : ('1' :: '_' :: '0' :: '_' :: List.replicate a 'a') =
      ('1' :: '_' :: '0' :: '_' :: List.replicate b 'a') :=
    congrArg String.data h
  have hr : List.replicate a 'a' = List.replicate b 'a' := by
    simpa using hd
  have := congrArg List.length hr
  simpa using this

/-- The 1000 warm-up keys are pairwise distinct. -/
theorem cex_keys_nodup : cex_keys.Nodup :=
  List.Nodup.map goal_id_cex_pre_inj (List.nodup_range 1000)

/-- There are 1000 warm-up keys. -/
theorem cex_keys_length : cex_keys.length = 1000 := by
  simp [cex_keys]

/-- Every warm-up key starts with the character 1 (its fixture id). -/
theorem mem_cex_keys_head {s : String} (hs : s ∈ cex_keys) :
    s.data.head? = some '1' := by
  simp only [cex_keys, List.mem_map, List.mem_range] at hs
  obtain ⟨n, -, rfl⟩ := hs
  rw [goal_id_cex_pre]
  rfl

/-- A key that does not start with the character 1 is not a warm-up key. -/
theorem not_mem_cex_keys {g : String} (hg : g.data.head? ≠ some '1') :
    g ∉ cex_keys := fun h => hg (mem_cex_keys_head h)

/-- Pruning the set holding the warm-up keys plus one newly added key, under
the reverse enumeration order, retains the last 500 warm-up keys of that
order and in particular drops the newly added key. -/
theorem prune_cex (g : String) :
    prune_seen_goals set_enum_reverse (cex_keys ++ [g]) =
      cex_keys.reverse.drop 500 := by
  have hrev : (cex_keys ++ [g]).reverse = g :: cex_keys.reverse := by
    simp
  have hlen : (cex_keys ++ [g]).length = 1001 := by
    simp [cex_keys_length]
  unfold prune_seen_goals set_enum_reverse
  rw [if_pos (by rw [hlen]; norm_num), hrev]
  have hlen2 : (g :: cex_keys.reverse).length = 1001 := by
    simp [cex_keys_length]
  rw [hlen2]
  norm_num [List.drop_succ_cons]

/-- A key outside the warm-up keys is not retained by that pruning. -/
theorem not_mem_prune_cex {g h : String} (hg : g ∉ cex_keys) :
    g ∉ prune_seen_goals set_enum_reverse (cex_keys ++ [h]) := by
  rw [prune_cex]
  intro hmem
  exact hg (List.mem_reverse.mp (List.mem_of_mem_drop hmem))

attribute [irreducible] cex_keys

/-- Storing a score pair for a fixture makes it the looked-up snapshot. -/
theorem score_lookup_insert (tbl : List (Nat × Nat × Nat)) (fid : Nat)
    (v : Nat × Nat) : score_lookup (score_insert tbl fid v) fid = some v := by
  simp [score_lookup, score_insert]

/-- Processing a goal message for a league outside the allow-list changes
nothing and emits nothing. -/
theorem handle_goal_event_not_allowed (enum : List String → List String)
    (st : ListenerState) (m : GoalMsg)
    (h : ¬ league_allowed m.league_id = true) :
    handle_goal_event enum st m = (st, []) := by
  unfold handle_goal_event
  rw [if_neg h]

/-- The stream path emits either nothing or exactly the event built from
the message. -/
theorem handle_goal_event_events (enum : List String → List String)
    (st : ListenerState) (m : GoalMsg) :
    (handle_goal_event enum st m).2 = [] ∨
      (handle_goal_event enum st m).2 = [goal_event_from_msg m] := by
  by_cases h1 : league_allowed m.league_id = true
  · by_cases h2 : goal_id m ∈ st.seen_goals
    · rw [handle_goal_event_seen enum st m h2]
      left; rfl
    · rw [handle_goal_event_fresh_prune enum st m h1 h2]
      right; rfl
  · rw [handle_goal_event_not_allowed enum st m h1]
    left; rfl

/-- Polling skips a fixture outside the allow-list, snapshot untouched. -/
theorem poll_fixture_step_not_allowed (tbl : List (Nat × Nat × Nat))
    (f : PollFixture) (h : ¬ league_allowed (some f.league_id) = true) :
    poll_fixture_step tbl f = ([], tbl) := by
  unfold poll_fixture_step
  rw [if_neg h]

/-- Polling a fixture seen for the first time emits nothing but stores its
scores. -/
theorem poll_fixture_step_first_seen (tbl : List (Nat × Nat × Nat))
    (f : PollFixture) (hl : league_allowed (some f.league_id) = true)
    (h : score_lookup tbl f.fixture_id = none) :
    poll_fixture_step tbl f =
      ([], score_insert tbl f.fixture_id
        (f.goals_home.getD 0, f.goals_away.getD 0)) := by
  unfold poll_fixture_step
  rw [if_pos hl, h]

/-- Polling an allow-listed fixture with a stored snapshot emits one event
per increased score column and stores the current scores. -/
theorem poll_fixture_step_delta (tbl : List (Nat × Nat × Nat))
    (f : PollFixture) (prev : Nat × Nat)
    (hl : league_allowed (some f.league_id) = true)
    (hp : score_lookup tbl f.fixture_id = some prev) :
    poll_fixture_step tbl f =
      ((if prev.1 < f.goals_home.getD 0 then [emit_polling_goal f Side.home]
          else []) ++
        (if prev.2 < f.goals_away.getD 0 then [emit_polling_goal f Side.away]
          else []),
        score_insert tbl f.fixture_id
          (f.goals_home.getD 0, f.goals_away.getD 0)) := by
  unfold poll_fixture_step
  rw [if_pos hl, hp]

/-- Every event of a poll step is one of the two synthesized events. -/
theorem poll_fixture_step_events (tbl : List (Nat × Nat × Nat))
    (f : PollFixture) :
    ∀ e ∈ (poll_fixture_step tbl f).1,
      e = emit_polling_goal f Side.home ∨
        e = emit_polling_goal f Side.away := by
  intro e he
  by_cases hl : league_allowed (some f.league_id) = true
  · rcases hsl : score_lookup tbl f.fixture_id with _ | prev
    · rw [poll_fixture_step_first_seen tbl f hl hsl] at he
      simp at he
    · rw [poll_fixture_step_delta tbl f prev hl hsl] at he
      simp only [List.mem_append] at he
      rcases he with h | h
      · by_cases hc : prev.1 < f.goals_home.getD 0
        · rw [if_pos hc] at h
          simp only [List.mem_singleton] at h
          exact Or.inl h
        · rw [if_neg hc] at h
          simp at h
      · by_cases hc : prev.2 < f.goals_away.getD 0
        · rw [if_pos hc] at h
          simp only [List.mem_singleton] at h
          exact Or.inr h
        · rw [if_neg hc] at h
          simp at h
  · rw [poll_fixture_step_not_allowed tbl f hl] at he
    simp at he

/-- C1: after 11 consecutive failed connection attempts the listener makes
the exhaustion state transition (`running := false`) rather than crashing —
`start` returns normally — but precisely because no exception escapes,
`_run_websocket` leaves `use_polling_fallback` at `False` and the health
monitor never invokes `_poll_for_goals`.  The code therefore contradicts
both the spec and `HybridGoalListener`'s own docstring ("falls back to
polling if WebSocket connection fails repeatedly"): exhaustion never
activates the polling fallback. -/
theorem c1_exhaustion_never_activates_fallback :
    start_run (List.replicate 11 ConnAttempt.fails)
        { running := true, reconnect_attempts := 0 } =
      Except.ok { running := false, reconnect_attempts := 11 } ∧
    run_websocket (List.replicate 11 ConnAttempt.fails) false = false ∧
    health_monitor_polls true
      (run_websocket (List.replicate 11 ConnAttempt.fails) false) = false :=
  ⟨rfl, rfl, rfl⟩

/-- C2: for every attempt number in `[1, 10]` and every injected jitter
sample `r ∈ [0, 1]`, the reconnection delay equals
`min(base*2^(n-1), cap) + min(base*2^(n-1), cap) * (r/4)`, lies between the
capped backoff and 1.25 times it, reduces to `[base*2^(n-1),
base*2^(n-1)*1.25]` whenever the uncapped backoff is below the cap, never
exceeds `cap * 1.25`, and is exactly the delay `_handle_reconnection`
sleeps for at that attempt. -/
theorem c2_reconnect_delay_bounds (n : Nat) (r : ℚ) (h1 : 1 ≤ n)
    (h2 : n ≤ max_reconnect_attempts) (hr0 : 0 ≤ r) (hr1 : r ≤ 1) :
    next_delay n r =
      min (base_reconnect_delay * 2 ^ (n - 1)) max_reconnect_delay +
        min (base_reconnect_delay * 2 ^ (n - 1)) max_reconnect_delay *
          (r * (1 / 4)) ∧
    min (base_reconnect_delay * 2 ^ (n - 1)) max_reconnect_delay ≤
      next_delay n r ∧
    next_delay n r ≤
      min (base_reconnect_delay * 2 ^ (n - 1)) max_reconnect_delay * (5 / 4) ∧
    (base_reconnect_delay * 2 ^ (n - 1) ≤ max_reconnect_delay →
      base_reconnect_delay * 2 ^ (n - 1) ≤ next_delay n r ∧
        next_delay n r ≤ base_reconnect_delay * 2 ^ (n - 1) * (5 / 4)) ∧
    next_delay n r ≤ max_reconnect_delay * (5 / 4) ∧
    (handle_reconnection ⟨true, n - 1⟩ r).2 = some (next_delay n r) := by
  have hdef : next_delay n r =
      min (base_reconnect_delay * 2 ^ (n - 1)) max_reconnect_delay +
        min (base_reconnect_delay * 2 ^ (n - 1)) max_reconnect_delay *
          (r * (1 / 4)) := rfl
  have hb0 : (0 : ℚ) ≤ base_reconnect_delay * 2 ^ (n - 1) := by
    unfold base_reconnect_delay; positivity
  have hd0 : (0 : ℚ) ≤
      min (base_reconnect_delay * 2 ^ (n - 1)) max_reconnect_delay :=
    le_min hb0 (by unfold max_reconnect_delay; norm_num)
  have hjit0 : (0 : ℚ) ≤
      min (base_reconnect_delay * 2 ^ (n - 1)) max_reconnect_delay *
        (r * (1 / 4)) :=
    mul_nonneg hd0 (mul_nonneg hr0 (by norm_num))
  have hjit1 :
      min (base_reconnect_delay * 2 ^ (n - 1)) max_reconnect_delay *
        (r * (1 / 4)) ≤
      min (base_reconnect_delay * 2 ^ (n - 1)) max_reconnect_delay *
        (1 / 4) := by
    apply mul_le_mul_of_nonneg_left _ hd0
    linarith
  have hlow :
      min (base_reconnect_delay * 2 ^ (n - 1)) max_reconnect_delay ≤
        next_delay n r := by
    rw [hdef]; linarith
  have hhigh : next_delay n r ≤
      min (base_reconnect_delay * 2 ^ (n - 1)) max_reconnect_delay *
        (5 / 4) := by
    rw [hdef]; linarith
  have hcap :
      min (base_reconnect_delay * 2 ^ (n - 1)) max_reconnect_delay ≤
        max_reconnect_delay :=
    min_le_right _ _
  refine ⟨hdef, hlow, hhigh, ?_, ?_, ?_⟩
  · intro hle
    rw [min_eq_left hle] at hlow hhigh
    exact ⟨hlow, hhigh⟩
  · calc next_delay n r ≤
        min (base_reconnect_delay * 2 ^ (n - 1)) max_reconnect_delay *
          (5 / 4) := hhigh
      _ ≤ max_reconnect_delay * (5 / 4) :=
        mul_le_mul_of_nonneg_right hcap (by norm_num)
  · have hn : n - 1 + 1 = n := by omega
    unfold max_reconnect_attempts at h2
    simp only [handle_reconnection, hn]
    rw [if_neg (by unfold max_reconnect_attempts; omega)]

/-- C2 witness: attempt 3 with jitter sample 1/2 satisfies the hypotheses,
and the theorem yields the bounds there. -/
theorem c2_witness :
    ((1 : Nat) ≤ 3 ∧ (3 : Nat) ≤ max_reconnect_attempts ∧
      (0 : ℚ) ≤ 1 / 2 ∧ (1 / 2 : ℚ) ≤ 1) ∧
    min (base_reconnect_delay * 2 ^ (3 - 1)) max_reconnect_delay ≤
      next_delay 3 (1 / 2) ∧
    next_delay 3 (1 / 2) ≤ max_reconnect_delay * (5 / 4) :=
  ⟨⟨by norm_num, by decide, by norm_num, by norm_num⟩,
    (c2_reconnect_delay_bounds 3 (1 / 2) (by norm_num) (by decide)
      (by norm_num) (by norm_num)).2.1,
    (c2_reconnect_delay_bounds 3 (1 / 2) (by norm_num) (by decide)
      (by norm_num) (by norm_num)).2.2.2.2.1⟩

/-- C3 (amended): provided the dedup set has not crossed the high-water
mark when the first message arrives (fewer than 1000 retained keys, so the
pruning that can evict keys does not fire) and the second message follows
immediately, an allow-listed goal message with a fresh key is admitted
(delivered, key recorded) and a second message with the identical
(fixture id, minute, player) triple is rejected with no state change —
whatever its league.  The admission conjunct also shows that a fresh-keyed
allow-listed message is always admitted. -/
theorem c3_dedup_admit_reject_amended (enum : List String → List String)
    (st : ListenerState) (m1 m2 : GoalMsg)
    (hlen : st.seen_goals.length < 1000)
    (hleague : league_allowed m1.league_id = true)
    (hfresh : goal_id m1 ∉ st.seen_goals)
    (hfid : m2.fixture_id = m1.fixture_id)
    (hmin : m2.minute.getD 0 = m1.minute.getD 0)
    (hplayer : m2.player.getD "unknown" = m1.player.getD "unknown") :
    handle_goal_event enum st m1 =
      ({ st with seen_goals := st.seen_goals ++ [goal_id m1] },
        [goal_event_from_msg m1]) ∧
    handle_goal_event enum
        { st with seen_goals := st.seen_goals ++ [goal_id m1] } m2 =
      ({ st with seen_goals := st.seen_goals ++ [goal_id m1] }, []) := by
  have hkey : goal_id m2 = goal_id m1 := by
    unfold goal_id
    rw [hfid, hmin, hplayer]
  refine ⟨handle_goal_event_fresh enum st m1 hleague hfresh hlen, ?_⟩
  apply handle_goal_event_seen
  rw [hkey]
  simp

/-- C3 witness: from an empty dedup set, the message `c3_m` is admitted and
its immediate resend is rejected. -/
theorem c3_witness :
    ((⟨[], []⟩ : ListenerState).seen_goals.length < 1000 ∧
      league_allowed c3_m.league_id = true ∧
      goal_id c3_m ∉ (⟨[], []⟩ : ListenerState).seen_goals) ∧
    handle_goal_event set_enum_reverse ⟨[], []⟩ c3_m =
      (⟨[goal_id c3_m], []⟩, [goal_event_from_msg c3_m]) ∧
    handle_goal_event set_enum_reverse ⟨[goal_id c3_m], []⟩ c3_m =
      (⟨[goal_id c3_m], []⟩, []) := by
  have h := c3_dedup_admit_reject_amended set_enum_reverse ⟨[], []⟩ c3_m c3_m
    (by simp) (by decide) (by simp) rfl rfl rfl
  exact ⟨⟨by simp, by decide, by simp⟩, by simpa using h.1, by simpa using h.2⟩

/-- C3 counterexample to the claim as stated: after the 1000 warm-up goal
messages are processed from a fresh listener, the fresh-keyed message
`c3_m` is admitted, but its own admission pushes the set over the
high-water mark and the pruning (under the reverse enumeration of the set)
evicts the just-recorded key, so the identical message sent next is
admitted and delivered again — the claim's "the second is rejected"
fails. -/
theorem c3_counterexample :
    run_goal_msgs set_enum_reverse { seen_goals := [], active_fixtures := [] }
        ((List.range 1000).map cex_pre_msg) =
      { seen_goals := cex_keys, active_fixtures := [] } ∧
    handle_goal_event set_enum_reverse
        { seen_goals := cex_keys, active_fixtures := [] } c3_m =
      ({ seen_goals :=
          prune_seen_goals set_enum_reverse (cex_keys ++ [goal_id c3_m]),
         active_fixtures := [] },
        [goal_event_from_msg c3_m]) ∧
    (handle_goal_event set_enum_reverse
        { seen_goals :=
            prune_seen_goals set_enum_reverse (cex_keys ++ [goal_id c3_m]),
          active_fixtures := [] } c3_m).2 =
      [goal_event_from_msg c3_m] := by
  have hl3 : league_allowed c3_m.league_id = true := by decide
  have hfresh3 : goal_id c3_m ∉ cex_keys := not_mem_cex_keys (by decide)
  have hreach := run_goal_msgs_fresh set_enum_reverse
    ((List.range 1000).map cex_pre_msg)
    { seen_goals := [], active_fixtures := [] }
    (by
      intro m hm
      simp only [List.mem_map, List.mem_range] at hm
      obtain ⟨n, -, rfl⟩ := hm
      simp only [cex_pre_msg]
      decide)
    (by
      rw [List.map_map]
      simpa [cex_keys, Function.comp] using cex_keys_nodup)
    (by simp)
  refine ⟨?_, ?_, ?_⟩
  · rw [hreach]
    rw [List.map_map]
    simp [cex_keys, Function.comp]
  · exact handle_goal_event_fresh_prune set_enum_reverse
      { seen_goals := cex_keys, active_fixtures := [] } c3_m hl3 hfresh3
  · rw [handle_goal_event_fresh_prune set_enum_reverse
      { seen_goals :=
          prune_seen_goals set_enum_reverse (cex_keys ++ [goal_id c3_m]),
        active_fixtures := [] } c3_m hl3 (not_mem_prune_cex hfresh3)]

/-- C4 (amended): whenever the dedup set exceeds the high-water mark of
1000 keys, pruning leaves at most `1000 / 2 + 1` entries (in fact exactly
500), for any enumeration order of the set; the claim's other half — that
no key from the most recent half of insertions is lost — does not hold,
because the retained entries are the tail of the set's
implementation-defined iteration order, which is unrelated to insertion
order (see the counterexample). -/
theorem c4_prune_size_bound (enum : List String → List String)
    (seen : List String) (h : 1000 < seen.length) :
    (prune_seen_goals enum seen).length ≤ 1000 / 2 + 1 := by
  unfold prune_seen_goals
  rw [if_pos h]
  rw [List.length_drop]
  omega

/-- C4 witness: the concrete 1001-key set exceeds the mark and its pruned
form obeys the size bound. -/
theorem c4_witness :
    1000 < c4_seen.length ∧
    (prune_seen_goals set_enum_reverse c4_seen).length ≤ 1000 / 2 + 1 := by
  have hlen : 1000 < c4_seen.length := by
    simp [c4_seen, cex_keys_length]
  exact ⟨hlen, c4_prune_size_bound set_enum_reverse c4_seen hlen⟩

/-- C4 counterexample to the claim as stated: with 1001 retained keys (the
mark is exceeded) and the legitimate reverse enumeration of the set, the
key added most recently — squarely inside the most recent half of
insertions — is lost by the pruning. -/
theorem c4_counterexample :
    1000 < c4_seen.length ∧
    (set_enum_reverse c4_seen).Perm c4_seen ∧
    c4_new ∈ recent_half c4_seen ∧
    c4_new ∉ prune_seen_goals set_enum_reverse c4_seen := by
  have hlen : c4_seen.length = 1001 := by
    simp [c4_seen, cex_keys_length]
  refine ⟨by omega, List.reverse_perm c4_seen, ?_, ?_⟩
  · unfold recent_half
    rw [hlen]
    show c4_new ∈ List.drop 500 (cex_keys ++ [c4_new])
    rw [List.drop_append_of_le_length (by rw [cex_keys_length]; omega)]
    simp
  · show c4_new ∉ prune_seen_goals set_enum_reverse (cex_keys ++ [c4_new])
    exact not_mem_prune_cex (not_mem_cex_keys (by decide))

/-- C10 (amended): provided the dedup set has not crossed the high-water
mark when the first message arrives and the second follows immediately, two
allow-listed goal messages for the same fixture that both lack a player
field and carry the same minute collapse to the same sentinel-defaulted
dedup key, so the second is suppressed with zero emitted events even when
its payload (for example the score) shows a genuinely distinct goal. -/
theorem c10_sentinel_dedup_amended (enum : List String → List String)
    (st : ListenerState) (m1 m2 : GoalMsg)
    (hlen : st.seen_goals.length < 1000)
    (hleague : league_allowed m1.league_id = true)
    (hfresh : goal_id m1 ∉ st.seen_goals)
    (hfid : m2.fixture_id = m1.fixture_id)
    (hp1 : m1.player = none) (hp2 : m2.player = none)
    (hmin : m2.minute = m1.minute) :
    handle_goal_event enum st m1 =
      ({ st with seen_goals := st.seen_goals ++ [goal_id m1] },
        [goal_event_from_msg m1]) ∧
    handle_goal_event enum
        { st with seen_goals := st.seen_goals ++ [goal_id m1] } m2 =
      ({ st with seen_goals := st.seen_goals ++ [goal_id m1] }, []) := by
  have hkey : goal_id m2 = goal_id m1 := by
    unfold goal_id
    rw [hfid, hmin, hp1, hp2]
  refine ⟨handle_goal_event_fresh enum st m1 hleague hfresh hlen, ?_⟩
  apply handle_goal_event_seen
  rw [hkey]
  simp

/-- C10 witness: from an empty dedup set, the player-less 1-0 goal message
for fixture 2000 at minute 9 is admitted, and the player-less 2-0 goal
message for the same fixture and minute — a distinct message describing a
distinct goal — is suppressed with zero emitted events. -/
theorem c10_witness :
    (c10_m1.player = none ∧ c10_m2.player = none ∧ c10_m1 ≠ c10_m2) ∧
    handle_goal_event set_enum_reverse ⟨[], []⟩ c10_m1 =
      (⟨[goal_id c10_m1], []⟩, [goal_event_from_msg c10_m1]) ∧
    handle_goal_event set_enum_reverse ⟨[goal_id c10_m1], []⟩ c10_m2 =
      (⟨[goal_id c10_m1], []⟩, []) := by
  have h := c10_sentinel_dedup_amended set_enum_reverse ⟨[], []⟩ c10_m1 c10_m2
    (by simp) (by decide) (by simp) rfl rfl rfl rfl
  exact ⟨⟨rfl, rfl, by decide⟩, by simpa using h.1, by simpa using h.2⟩

/-- C10 counterexample to the claim as stated: after the 1000 warm-up
messages, the player-less message `c10_m1` is admitted, its key is evicted
by the pruning its own admission triggers (reverse set enumeration), and
the player-less same-minute message `c10_m2` — a distinct message with the
identical sentinel-defaulted key — is then admitted too, emitting an event
instead of the zero invocations the claim requires. -/
theorem c10_counterexample :
    goal_id c10_m2 = goal_id c10_m1 ∧ c10_m1 ≠ c10_m2 ∧
    run_goal_msgs set_enum_reverse { seen_goals := [], active_fixtures := [] }
        ((List.range 1000).map cex_pre_msg) =
      { seen_goals := cex_keys, active_fixtures := [] } ∧
    handle_goal_event set_enum_reverse
        { seen_goals := cex_keys, active_fixtures := [] } c10_m1 =
      ({ seen_goals :=
          prune_seen_goals set_enum_reverse (cex_keys ++ [goal_id c10_m1]),
         active_fixtures := [] },
        [goal_event_from_msg c10_m1]) ∧
    (handle_goal_event set_enum_reverse
        { seen_goals :=
            prune_seen_goals set_enum_reverse (cex_keys ++ [goal_id c10_m1]),
          active_fixtures := [] } c10_m2).2 =
      [goal_event_from_msg c10_m2] := by
  have hl1 : league_allowed c10_m1.league_id = true := by decide
  have hl2 : league_allowed c10_m2.league_id = true := by decide
  have hkey : goal_id c10_m2 = goal_id c10_m1 := by decide
  have hfresh1 : goal_id c10_m1 ∉ cex_keys := not_mem_cex_keys (by decide)
  have hreach := run_goal_msgs_fresh set_enum_reverse
    ((List.range 1000).map cex_pre_msg)
    { seen_goals := [], active_fixtures := [] }
    (by
      intro m hm
      simp only [List.mem_map, List.mem_range] at hm
      obtain ⟨n, -, rfl⟩ := hm
      simp only [cex_pre_msg]
      decide)
    (by
      rw [List.map_map]
      simpa [cex_keys, Function.comp] using cex_keys_nodup)
    (by simp)
  have hfresh2 : goal_id c10_m2 ∉
      prune_seen_goals set_enum_reverse (cex_keys ++ [goal_id c10_m1]) := by
    rw [hkey]
    exact not_mem_prune_cex hfresh1
  refine ⟨hkey, by decide, ?_, ?_, ?_⟩
  · rw [hreach]
    rw [List.map_map]
    simp [cex_keys, Function.comp]
  · exact handle_goal_event_fresh_prune set_enum_reverse
      { seen_goals := cex_keys, active_fixtures := [] } c10_m1 hl1 hfresh1
  · rw [handle_goal_event_fresh_prune set_enum_reverse
      { seen_goals :=
          prune_seen_goals set_enum_reverse (cex_keys ++ [goal_id c10_m1]),
        active_fixtures := [] } c10_m2 hl2 hfresh2]

/-- C5: for every poll cycle and every allow-listed fixture already present
in the snapshot table, exactly one synthesized home-goal event is emitted
iff the home score increased and exactly one away-goal event iff the away
score increased (one per increased column regardless of delta magnitude),
each with the polling sentinel as player and the fixture's elapsed minute;
and the stored snapshot is updated to the current scores unconditionally,
even when no column increased. -/
theorem c5_polling_delta_events (tbl : List (Nat × Nat × Nat))
    (f : PollFixture) (prev : Nat × Nat)
    (hl : league_allowed (some f.league_id) = true)
    (hp : score_lookup tbl f.fixture_id = some prev) :
    (poll_fixture_step tbl f).1 =
      (if prev.1 < f.goals_home.getD 0 then [emit_polling_goal f Side.home]
        else []) ++
      (if prev.2 < f.goals_away.getD 0 then [emit_polling_goal f Side.away]
        else []) ∧
    (∀ e ∈ (poll_fixture_step tbl f).1,
      e.player = "Unknown (from polling)" ∧ e.minute = f.elapsed.getD 0) ∧
    score_lookup (poll_fixture_step tbl f).2 f.fixture_id =
      some (f.goals_home.getD 0, f.goals_away.getD 0) := by
  have hstep := poll_fixture_step_delta tbl f prev hl hp
  refine ⟨?_, ?_, ?_⟩
  · rw [hstep]
  · intro e he
    rcases poll_fixture_step_events tbl f e he with rfl | rfl
    · exact ⟨rfl, rfl⟩
    · exact ⟨rfl, rfl⟩
  · rw [hstep]
    exact score_lookup_insert tbl f.fixture_id _

/-- C5 witness: fixture 7, snapshot 1-0, polled at 2-0, emits exactly one
home-goal event and the snapshot becomes 2-0. -/
theorem c5_witness :
    (league_allowed (some c5_f.league_id) = true ∧
      score_lookup [(7, 1, 0)] c5_f.fixture_id = some (1, 0)) ∧
    (poll_fixture_step [(7, 1, 0)] c5_f).1 =
      [emit_polling_goal c5_f Side.home] ∧
    score_lookup (poll_fixture_step [(7, 1, 0)] c5_f).2 c5_f.fixture_id =
      some (2, 0) := by
  have h := c5_polling_delta_events [(7, 1, 0)] c5_f (1, 0)
    (by decide) (by decide)
  refine ⟨⟨by decide, by decide⟩, ?_, ?_⟩
  · rw [h.1]
    decide
  · have h3 := h.2.2
    simpa using h3

/-- C6: dispatching an event to the registered consumers invokes every one
of them exactly once, in registration order, with that event; a consumer
whose callback raises on every call is recorded (logged) but never prevents
any later consumer from being invoked, and no consumer error propagates to
the dispatcher's caller (the dispatch always returns `ok`). -/
theorem c6_fanout_isolation_order :
    (∀ (cbs : List Consumer) (g : GoalEventWS),
      notify_goal_callbacks cbs g =
        Except.ok (cbs.map (fun cb => cb g))) ∧
    (∀ (pre : List Consumer) (bad : Consumer) (post : List Consumer)
      (g : GoalEventWS),
      notify_goal_callbacks (pre ++ bad :: post) g =
        Except.ok (pre.map (fun cb => cb g) ++
          bad g :: post.map (fun cb => cb g))) := by
  have h1 : ∀ (cbs : List Consumer) (g : GoalEventWS),
      notify_goal_callbacks cbs g =
        Except.ok (cbs.map (fun cb => cb g)) := by
    intro cbs g
    induction cbs with
    | nil => rfl
    | cons cb rest ih =>
        unfold notify_goal_callbacks
        rw [ih]
        rfl
  refine ⟨h1, ?_⟩
  intro pre bad post g
  rw [h1]
  simp

/-- C7: a goal message whose league id is outside the allow-list (or
missing) is dropped before reaching the deduplicator: the state — dedup set
and active-fixture table — is unchanged and no event is delivered, so zero
callbacks are invoked. -/
theorem c7_league_filter_drops (enum : List String → List String)
    (st : ListenerState) (m : GoalMsg)
    (h : league_allowed m.league_id = false) :
    process_message enum st (WsMessage.goal m) = Except.ok (st, []) := by
  show Except.ok (handle_goal_event enum st m) = _
  rw [handle_goal_event_not_allowed enum st m (by simp [h])]

/-- C7 witness: a goal for league 999 leaves a non-empty listener state
untouched and emits nothing. -/
theorem c7_witness :
    league_allowed c7_m.league_id = false ∧
    process_message set_enum_reverse ⟨["55_10_w"], []⟩ (WsMessage.goal c7_m) =
      Except.ok (⟨["55_10_w"], []⟩, []) :=
  ⟨by decide,
    c7_league_filter_drops set_enum_reverse ⟨["55_10_w"], []⟩ c7_m (by decide)⟩

/-- C8: message processing never raises to its caller — every inbound frame
(non-JSON text, non-object JSON, unrecognized kinds) yields `ok`, with
malformed and unrecognized frames dropped without touching the state; and a
goal payload with missing identity fields is parsed with sentinel defaults
(team and player "Unknown", minute 0) instead of failing. -/
theorem c8_router_never_raises (enum : List String → List String)
    (st : ListenerState) :
    (∀ msg : WsMessage, (process_message enum st msg).isOk = true) ∧
    (∀ raw, process_message enum st (WsMessage.malformed raw) =
      Except.ok (st, [])) ∧
    (∀ raw, process_message enum st (WsMessage.nonDict raw) =
      Except.ok (st, [])) ∧
    (∀ t, process_message enum st (WsMessage.unknown t) =
      Except.ok (st, [])) ∧
    (∀ m : GoalMsg, m.team = none → m.player = none → m.minute = none →
      league_allowed m.league_id = true → goal_id m ∉ st.seen_goals →
      process_message enum st (WsMessage.goal m) =
        Except.ok
          ({ st with seen_goals :=
              prune_seen_goals enum (st.seen_goals ++ [goal_id m]) },
            [goal_event_from_msg m]) ∧
        (goal_event_from_msg m).team = "Unknown" ∧
        (goal_event_from_msg m).player = "Unknown" ∧
        (goal_event_from_msg m).minute = 0) := by
  refine ⟨?_, fun raw => rfl, fun raw => rfl, fun t => rfl, ?_⟩
  · intro msg
    cases msg <;> rfl
  · intro m ht hp hm hl hf
    refine ⟨?_, ?_, ?_, ?_⟩
    · show Except.ok (handle_goal_event enum st m) = _
      rw [handle_goal_event_fresh_prune enum st m hl hf]
    · simp [goal_event_from_msg, ht]
    · simp [goal_event_from_msg, hp]
    · simp [goal_event_from_msg, hm]

/-- C8 witness: the all-fields-missing goal message `c8_m` satisfies the
hypotheses on an empty listener, parses to the sentinel event, and a
malformed frame is processed without raising. -/
theorem c8_witness :
    (c8_m.team = none ∧ c8_m.player = none ∧ c8_m.minute = none ∧
      league_allowed c8_m.league_id = true ∧
      goal_id c8_m ∉ (⟨[], []⟩ : ListenerState).seen_goals) ∧
    (goal_event_from_msg c8_m).team = "Unknown" ∧
    (goal_event_from_msg c8_m).player = "Unknown" ∧
    (goal_event_from_msg c8_m).minute = 0 ∧
    (process_message set_enum_reverse ⟨[], []⟩
      (WsMessage.malformed "not json")).isOk = true := by
  have h := (c8_router_never_raises set_enum_reverse ⟨[], []⟩).2.2.2.2 c8_m
    rfl rfl rfl (by decide) (by simp)
  exact ⟨⟨rfl, rfl, rfl, by decide, by simp⟩, h.2.1, h.2.2.1, h.2.2.2,
    (c8_router_never_raises set_enum_reverse ⟨[], []⟩).1
      (WsMessage.malformed "not json")⟩

/-- C9 (amended): every delivered event carries the payload's values
verbatim — on the stream path minute and scores equal the goal message's
fields (with missing fields defaulting to 0), and on the polling path the
minute is the fixture's elapsed field and the scores are the current
snapshot scores.  Being naturals they are non-negative, but no upper bound
on the minute (such as 130) and no per-fixture monotonicity of scores is
enforced anywhere (see the counterexample). -/
theorem c9_event_fields_unvalidated :
    (∀ (enum : List String → List String) (st : ListenerState) (m : GoalMsg),
      ∀ e ∈ (handle_goal_event enum st m).2,
        e.minute = m.minute.getD 0 ∧ e.home_score = m.score_home.getD 0 ∧
          e.away_score = m.score_away.getD 0) ∧
    (∀ (tbl : List (Nat × Nat × Nat)) (f : PollFixture),
      ∀ e ∈ (poll_fixture_step tbl f).1,
        e.minute = f.elapsed.getD 0 ∧ e.home_score = f.goals_home.getD 0 ∧
          e.away_score = f.goals_away.getD 0) := by
  constructor
  · intro enum st m e he
    rcases handle_goal_event_events enum st m with h | h
    · rw [h] at he
      simp at he
    · rw [h] at he
      simp only [List.mem_singleton] at he
      subst he
      exact ⟨rfl, rfl, rfl⟩
  · intro tbl f e he
    rcases poll_fixture_step_events tbl f e he with rfl | rfl
    · exact ⟨rfl, rfl, rfl⟩
    · exact ⟨rfl, rfl, rfl⟩

/-- C9 witness: the theorem evaluated on the stream event of `c9_m` (fresh
empty listener) and on the polling event of fixture `c5_f`. -/
theorem c9_witness :
    goal_event_from_msg c9_m ∈
      (handle_goal_event set_enum_reverse ⟨[], []⟩ c9_m).2 ∧
    ((goal_event_from_msg c9_m).minute = c9_m.minute.getD 0 ∧
      (goal_event_from_msg c9_m).home_score = c9_m.score_home.getD 0 ∧
      (goal_event_from_msg c9_m).away_score = c9_m.score_away.getD 0) ∧
    emit_polling_goal c5_f Side.home ∈
      (poll_fixture_step [(7, 1, 0)] c5_f).1 ∧
    ((emit_polling_goal c5_f Side.home).minute = c5_f.elapsed.getD 0 ∧
      (emit_polling_goal c5_f Side.home).home_score =
        c5_f.goals_home.getD 0 ∧
      (emit_polling_goal c5_f Side.home).away_score =
        c5_f.goals_away.getD 0) := by
  have hmem1 : goal_event_from_msg c9_m ∈
      (handle_goal_event set_enum_reverse ⟨[], []⟩ c9_m).2 := by
    rw [handle_goal_event_fresh_prune set_enum_reverse ⟨[], []⟩ c9_m
      (by decide) (by simp)]
    simp
  have hmem2 : emit_polling_goal c5_f Side.home ∈
      (poll_fixture_step [(7, 1, 0)] c5_f).1 := by decide
  exact ⟨hmem1,
    c9_event_fields_unvalidated.1 set_enum_reverse ⟨[], []⟩ c9_m _ hmem1,
    hmem2,
    c9_event_fields_unvalidated.2 [(7, 1, 0)] c5_f _ hmem2⟩

/-- C9 counterexample to the claim as stated: the goal message `c9_m`
(allow-listed league, fresh key) is delivered with match minute 200, which
is outside [0, 130] — the code never validates the minute range. -/
theorem c9_counterexample :
    (handle_goal_event set_enum_reverse ⟨[], []⟩ c9_m).2 =
      [goal_event_from_msg c9_m] ∧
    (goal_event_from_msg c9_m).minute = 200 ∧
    ¬ (goal_event_from_msg c9_m).minute ≤ 130 := by
  refine ⟨?_, by decide, by decide⟩
  rw [handle_goal_event_fresh_prune set_enum_reverse ⟨[], []⟩ c9_m
    (by decide) (by simp)]
